import Mathlib

/-!
Verification of the cart / order-submission component `OrderSystem.tsx`.

The component state (`useState` hooks) is embedded as an explicit record
`OrderSystemState`; each handler becomes a pure state-transition function
translated line by line from the source.  Prices are modelled as rationals
(the source uses JavaScript numbers); quantities and ids as integers.
Asynchronous collaborator calls (menu fetch, order persistence) are
modelled by passing the collaborator's outcome as an explicit argument,
and the `console.error` log as an explicit list of logged strings.
-/

/-- A catalog entry as delivered by the menu service (`MenuItem` in `types`):
an id, a display name and a price. -/
structure MenuItem where
  id : Int
  name : String
  price : ℚ
deriving DecidableEq, Repr

/-- A cart line (`OrderItem` in `types`): a menu item spread together with a
quantity, exactly as built by `{ ...item, quantity: 1 }`. -/
structure OrderItem where
  id : Int
  name : String
  price : ℚ
  quantity : Int
deriving DecidableEq, Repr

/-- The authenticated user supplied by `useAuth`. -/
structure User where
  id : Int
deriving DecidableEq, Repr

/-- Status enum of a constructed order; the source only ever uses `pending`. -/
inductive OrderStatus where
  | pending
deriving DecidableEq, Repr

/-- The immutable order record constructed by `handleSubmitOrder`:
`{ id: crypto.randomUUID(), items, total, timestamp, status: 'pending', userId }`. -/
structure Order where
  id : String
  items : List OrderItem
  total : ℚ
  timestamp : String
  status : OrderStatus
  userId : Int
deriving DecidableEq, Repr

/-- The component's `useState` hooks gathered into one state record:
`menuItems`, `orderItems`, `loading`, `error`, `submitting`, `successMessage`. -/
structure OrderSystemState where
  menuItems : List MenuItem
  orderItems : List OrderItem
  loading : Bool
  error : Option String
  submitting : Bool
  successMessage : Option String
deriving DecidableEq, Repr

/-- `handleAddItem`: if a line with the item's id already exists
(`prev.find(i => i.id === item.id)`), map over the lines incrementing the
matching line's quantity by 1; otherwise append `{ ...item, quantity: 1 }`. -/
def handleAddItem (item : MenuItem) (prev : List OrderItem) : List OrderItem :=
  match prev.find? (fun i => i.id == item.id) with
  | some _ =>
      prev.map (fun i =>
        if i.id = item.id then { i with quantity := i.quantity + 1 } else i)
  | none =>
      prev ++ [{ id := item.id, name := item.name, price := item.price, quantity := 1 }]

/-- `handleUpdateQuantity`: `if (quantity < 1) return;` then map over the
lines replacing the quantity of the line whose id matches. -/
def handleUpdateQuantity (id : Int) (quantity : Int) (prev : List OrderItem) :
    List OrderItem :=
  if quantity < 1 then prev
  else prev.map (fun item => if item.id = id then { item with quantity := quantity } else item)

/-- `handleRemoveItem`: `prev.filter(item => item.id !== id)`. -/
def handleRemoveItem (id : Int) (prev : List OrderItem) : List OrderItem :=
  prev.filter (fun item => item.id != id)

/-- `calculateTotal`: `orderItems.reduce((sum, item) => sum + item.price * item.quantity, 0)`.
The fold structure mirrors the source; the arithmetic is idealised to exact
rationals (the source computes with IEEE-754 doubles). -/
def calculateTotal (orderItems : List OrderItem) : ℚ :=
  orderItems.foldl (fun sum item => sum + item.price * item.quantity) 0

/-- `fetchMenuItems` (the `useEffect` body): on `ok` store the items, on
failure set the generic error message and log the cause (`console.error(err)`),
and in both cases `finally` clear `loading`.  The second component is the
console log produced by the call. -/
def fetchMenuItems (result : Except String (List MenuItem)) (s : OrderSystemState) :
    OrderSystemState × List String :=
  match result with
  | Except.ok items => ({ s with menuItems := items, loading := false }, [])
  | Except.error err =>
      ({ s with error := some "Failed to load menu items", loading := false }, [err])

/-- Outcome of the persistence collaborator `orderService.submitOrder`:
success, or failure carrying an optional `err.message`. -/
inductive SubmitOutcome where
  | success
  | failure (message : Option String)
deriving DecidableEq, Repr

/-- The error message published on failure: `err.message || 'Failed to submit order'`.
JavaScript `||` falls through on a missing and on an empty message. -/
def errorFallback (message : Option String) : String :=
  match message with
  | some m => if m = "" then "Failed to submit order" else m
  | none => "Failed to submit order"

/-- `handleSubmitOrder` as one atomic transition: the guard
`if (!user || orderItems.length === 0 || submitting) return;`, then
`setSubmitting(true); setError(null)`, construction of the order record,
the persistence call (its outcome passed in as `outcome`, the issued order
returned as the second component; `none` means no call was made), the
success / catch branches, and `finally setSubmitting(false)`. -/
def handleSubmitOrder (user : Option User) (uuid timestamp : String)
    (outcome : SubmitOutcome) (s : OrderSystemState) :
    OrderSystemState × Option Order :=
  match user with
  | none => (s, none)
  | some u =>
    if s.orderItems = [] ∨ s.submitting = true then (s, none)
    else
      let order : Order :=
        { id := uuid, items := s.orderItems, total := calculateTotal s.orderItems,
          timestamp := timestamp, status := OrderStatus.pending, userId := u.id }
      match outcome with
      | SubmitOutcome.success =>
          ({ s with submitting := false, error := none, orderItems := [],
                    successMessage := some "Order submitted successfully!" }, some order)
      | SubmitOutcome.failure msg =>
          ({ s with submitting := false, error := some (errorFallback msg) }, some order)

/-- The first half of `handleSubmitOrder`, up to the suspension point of the
persistence call: the guard, then `setSubmitting(true); setError(null)`.
The boolean reports whether the persistence call is issued. -/
def submitStart (user : Option User) (s : OrderSystemState) : OrderSystemState × Bool :=
  match user with
  | none => (s, false)
  | some _ =>
    if s.orderItems = [] ∨ s.submitting = true then (s, false)
    else ({ s with submitting := true, error := none }, true)

/-- The second half of `handleSubmitOrder`, run when the pending persistence
call resolves: the success branch, the `catch` branch, and the `finally`. -/
def submitResolve (outcome : SubmitOutcome) (s : OrderSystemState) : OrderSystemState :=
  match outcome with
  | SubmitOutcome.success =>
      { s with orderItems := [], successMessage := some "Order submitted successfully!",
               submitting := false }
  | SubmitOutcome.failure msg =>
      { s with error := some (errorFallback msg), submitting := false }

/-- The `Snackbar`'s `autoHideDuration={6000}` in milliseconds. -/
def snackbarAutoHideDurationMs : Nat := 6000

/-- The `Snackbar` / `Alert` `onClose` handler: `setSuccessMessage(null)`. -/
def dismissSuccess (s : OrderSystemState) : OrderSystemState :=
  { s with successMessage := none }

/-- A cart-session event: a submit attempt by a (possibly absent) user, or
the resolution of the pending persistence call. -/
inductive SessionEvent where
  | submit (user : Option User)
  | resolve (outcome : SubmitOutcome)
deriving DecidableEq, Repr

/-- One event step over (state, number of persistence calls issued so far). -/
def stepEvent (s : OrderSystemState × Nat) (e : SessionEvent) : OrderSystemState × Nat :=
  match e with
  | SessionEvent.submit u =>
      ((submitStart u s.1).1, s.2 + if (submitStart u s.1).2 then 1 else 0)
  | SessionEvent.resolve o => (submitResolve o s.1, s.2)

/-- Run a sequence of session events from a state, counting persistence calls. -/
def runSession (events : List SessionEvent) (s : OrderSystemState) :
    OrderSystemState × Nat :=
  events.foldl stepEvent (s, 0)

/-- A cart mutation: one of the three cart-store handlers. -/
inductive CartOp where
  | add (item : MenuItem)
  | update (id : Int) (quantity : Int)
  | remove (id : Int)
deriving DecidableEq, Repr

/-- Apply one cart mutation. -/
def applyOp (op : CartOp) (cart : List OrderItem) : List OrderItem :=
  match op with
  | CartOp.add item => handleAddItem item cart
  | CartOp.update id q => handleUpdateQuantity id q cart
  | CartOp.remove id => handleRemoveItem id cart

/-- Apply a sequence of cart mutations, first to last. -/
def runOps (ops : List CartOp) (cart : List OrderItem) : List OrderItem :=
  ops.foldl (fun c op => applyOp op c) cart

/-- The cart-store invariant: every present line has quantity at least 1,
and no two lines share an id. -/
def CartInv (cart : List OrderItem) : Prop :=
  (∀ l ∈ cart, 1 ≤ l.quantity) ∧ (cart.map (fun l => l.id)).Nodup

instance (cart : List OrderItem) : Decidable (CartInv cart) := by
  unfold CartInv
  infer_instance

/-! ### Concrete states used by the witnesses -/

/-- A concrete cart line. -/
def lineTea : OrderItem := { id := 1, name := "Tea", price := 5, quantity := 2 }

/-- A concrete idle state with one cart line. -/
def sOneLine : OrderSystemState :=
  { menuItems := [], orderItems := [lineTea], loading := false, error := none,
    submitting := false, successMessage := none }

/-- A concrete idle state with an empty cart. -/
def sEmptyCart : OrderSystemState :=
  { menuItems := [], orderItems := [], loading := false, error := none,
    submitting := false, successMessage := none }

/-- A concrete state still loading the catalog. -/
def sLoading : OrderSystemState :=
  { menuItems := [], orderItems := [], loading := true, error := none,
    submitting := false, successMessage := none }

/-- A concrete idle state carrying the error of a previously failed submit. -/
def sFailedOnce : OrderSystemState :=
  { menuItems := [], orderItems := [lineTea], loading := false,
    error := some "network error", submitting := false, successMessage := none }

/-! ### Helper lemmas about the submission guard -/

/-- With the preconditions met, `submitStart` flips `submitting` on, nulls the
error slot and issues the persistence call. -/
lemma submitStart_valid (u : User) (s : OrderSystemState)
    (hne : s.orderItems ≠ []) (hidle : s.submitting = false) :
    submitStart (some u) s = ({ s with submitting := true, error := none }, true) := by
  have hc : ¬(s.orderItems = [] ∨ s.submitting = true) := by
    rintro (h | h)
    · exact hne h
    · rw [hidle] at h
      exact Bool.false_ne_true h
  simp only [submitStart]
  rw [if_neg hc]

/-- While a submission is in flight, `submitStart` is a no-op issuing no call. -/
lemma submitStart_busy (user : Option User) (s : OrderSystemState)
    (h : s.submitting = true) : submitStart user s = (s, false) := by
  cases user with
  | none => rfl
  | some u =>
    simp only [submitStart]
    rw [if_pos (Or.inr h)]

/-- With the preconditions met, `handleSubmitOrder` on a failing persistence
call publishes the fallback error message, resets `submitting` and leaves the
rest of the state alone. -/
lemma handleSubmitOrder_failure_eq (u : User) (uuid ts : String) (msg : Option String)
    (s : OrderSystemState) (hne : s.orderItems ≠ []) (hidle : s.submitting = false) :
    handleSubmitOrder (some u) uuid ts (SubmitOutcome.failure msg) s =
      ({ s with submitting := false, error := some (errorFallback msg) },
       some { id := uuid, items := s.orderItems, total := calculateTotal s.orderItems,
              timestamp := ts, status := OrderStatus.pending, userId := u.id }) := by
  have hc : ¬(s.orderItems = [] ∨ s.submitting = true) := by
    rintro (h | h)
    · exact hne h
    · rw [hidle] at h
      exact Bool.false_ne_true h
  simp only [handleSubmitOrder]
  rw [if_neg hc]

/-- With the preconditions met, `handleSubmitOrder` on a succeeding persistence
call clears the cart, publishes the success message and resets `submitting`. -/
lemma handleSubmitOrder_success_eq (u : User) (uuid ts : String)
    (s : OrderSystemState) (hne : s.orderItems ≠ []) (hidle : s.submitting = false) :
    handleSubmitOrder (some u) uuid ts SubmitOutcome.success s =
      ({ s with submitting := false, error := none, orderItems := [],
                successMessage := some "Order submitted successfully!" },
       some { id := uuid, items := s.orderItems, total := calculateTotal s.orderItems,
              timestamp := ts, status := OrderStatus.pending, userId := u.id }) := by
  have hc : ¬(s.orderItems = [] ∨ s.submitting = true) := by
    rintro (h | h)
    · exact hne h
    · rw [hidle] at h
      exact Bool.false_ne_true h
  simp only [handleSubmitOrder]
  rw [if_neg hc]

/-! ### Claim theorems -/

/-- Claim C1: whenever the user is absent, the cart is empty, or a submission
is already in flight, `handleSubmitOrder` returns immediately: no persistence
call is issued, no error is surfaced, and the whole state is unchanged. -/
theorem submit_noop_when_guard_fails (user : Option User) (uuid ts : String)
    (outcome : SubmitOutcome) (s : OrderSystemState)
    (h : user = none ∨ s.orderItems = [] ∨ s.submitting = true) :
    handleSubmitOrder user uuid ts outcome s = (s, none) := by
  cases user with
  | none => rfl
  | some u =>
    have h2 : s.orderItems = [] ∨ s.submitting = true := by
      rcases h with h | h | h
      · exact absurd h (by simp)
      · exact Or.inl h
      · exact Or.inr h
    simp only [handleSubmitOrder]
    rw [if_pos h2]

/-- Witness for C1: submitting with an empty cart changes nothing and issues
no persistence call. -/
theorem submit_noop_when_guard_fails_witness :
    handleSubmitOrder (some { id := 7 }) "uuid-1" "2024-01-01T00:00:00Z"
        SubmitOutcome.success sEmptyCart = (sEmptyCart, none) :=
  submit_noop_when_guard_fails (some { id := 7 }) "uuid-1" "2024-01-01T00:00:00Z"
    SubmitOutcome.success sEmptyCart (Or.inr (Or.inl rfl))

/-- Claim C7: `handleUpdateQuantity id q` is a complete no-op when `q < 1`;
when `q ≥ 1` it maps over the lines setting the matching line's quantity to
`q` and leaving every other field and line unchanged, so a line with that id
ends up with quantity `q`; and on an id not present in the cart it is a
silent no-op. -/
theorem updateQuantity_semantics (id q : Int) (cart : List OrderItem) :
    (q < 1 → handleUpdateQuantity id q cart = cart) ∧
    (1 ≤ q → handleUpdateQuantity id q cart =
        cart.map (fun i => if i.id = id then { i with quantity := q } else i)) ∧
    (1 ≤ q → ∀ l ∈ cart, l.id = id →
        ({ l with quantity := q } : OrderItem) ∈ handleUpdateQuantity id q cart) ∧
    ((∀ l ∈ cart, l.id ≠ id) → handleUpdateQuantity id q cart = cart) := by
  refine ⟨?_, ?_, ?_, ?_⟩
  · intro hq
    unfold handleUpdateQuantity
    rw [if_pos hq]
  · intro hq
    unfold handleUpdateQuantity
    rw [if_neg (by omega)]
  · intro hq l hl hid
    unfold handleUpdateQuantity
    rw [if_neg (by omega)]
    exact List.mem_map.2 ⟨l, hl, by rw [if_pos hid]⟩
  · intro habs
    unfold handleUpdateQuantity
    by_cases hq : q < 1
    · rw [if_pos hq]
    · rw [if_neg hq]
      have hmap : cart.map (fun i => if i.id = id then { i with quantity := q } else i)
          = cart.map (fun i => i) := by
        apply List.map_congr_left
        intro a ha
        rw [if_neg (habs a ha)]
      rw [hmap, List.map_id']

/-- Witness for C7: updating to quantity 0 leaves the one-line cart unchanged. -/
theorem updateQuantity_semantics_witness :
    handleUpdateQuantity 1 0 [lineTea] = [lineTea] :=
  (updateQuantity_semantics 1 0 [lineTea]).1 (by norm_num)

/-- Claim C9: when the startup catalog fetch fails, the loader publishes the
generic error message, leaves the loading state (loading becomes false with
the error slot filled), logs the underlying cause, and leaves the catalog
as it was; the single invocation makes no retry. -/
theorem catalog_load_failure_reports_error (s : OrderSystemState) (err : String)
    (_hload : s.loading = true) :
    (fetchMenuItems (Except.error err) s).1.error = some "Failed to load menu items" ∧
    (fetchMenuItems (Except.error err) s).1.loading = false ∧
    (fetchMenuItems (Except.error err) s).2 = [err] ∧
    (fetchMenuItems (Except.error err) s).1.menuItems = s.menuItems :=
  ⟨rfl, rfl, rfl, rfl⟩

/-- Witness for C9: a concrete failing fetch from the loading state. -/
theorem catalog_load_failure_reports_error_witness :
    (fetchMenuItems (Except.error "timeout") sLoading).1.error
      = some "Failed to load menu items" :=
  (catalog_load_failure_reports_error sLoading "timeout" rfl).1

/-- Claim C10: a submit that passes its guard nulls the error slot before the
persistence call is issued, so an error left by a previous failed attempt is
cleared at the start of the next attempt, whatever its eventual outcome. -/
theorem submit_clears_previous_error_before_call (u : User) (s : OrderSystemState)
    (hne : s.orderItems ≠ []) (hidle : s.submitting = false) :
    (submitStart (some u) s).1.error = none ∧ (submitStart (some u) s).2 = true := by
  rw [submitStart_valid u s hne hidle]
  exact ⟨rfl, rfl⟩

/-- Witness for C10: a state carrying a stale error has it cleared by the
next accepted submit before the call goes out. -/
theorem submit_clears_previous_error_before_call_witness :
    (submitStart (some { id := 7 }) sFailedOnce).1.error = none :=
  (submit_clears_previous_error_before_call { id := 7 } sFailedOnce
    (by simp [sFailedOnce]) rfl).1

/-- Claim C2: a valid submit whose persistence call fails sets the error slot
to the failure's message (falling back to the generic message when the failure
carries none), leaves the cart lines exactly as they were, returns
`submitting` to idle, and every subsequent submit is accepted again (its
persistence call is issued). -/
theorem submit_failure_preserves_cart_and_reenables (u : User) (uuid ts : String)
    (msg : Option String) (s : OrderSystemState)
    (hne : s.orderItems ≠ []) (hidle : s.submitting = false) :
    ((handleSubmitOrder (some u) uuid ts (SubmitOutcome.failure msg) s).1.orderItems
        = s.orderItems) ∧
    ((handleSubmitOrder (some u) uuid ts (SubmitOutcome.failure msg) s).1.error
        = some (errorFallback msg)) ∧
    (msg = none → errorFallback msg = "Failed to submit order") ∧
    (∀ m, msg = some m → m ≠ "" → errorFallback msg = m) ∧
    ((handleSubmitOrder (some u) uuid ts (SubmitOutcome.failure msg) s).1.submitting
        = false) ∧
    (∀ (u2 : User) (uuid2 ts2 : String) (o2 : SubmitOutcome),
      ((handleSubmitOrder (some u2) uuid2 ts2 o2
          (handleSubmitOrder (some u) uuid ts (SubmitOutcome.failure msg) s).1).2).isSome
        = true) := by
  have hfail := handleSubmitOrder_failure_eq u uuid ts msg s hne hidle
  refine ⟨?_, ?_, ?_, ?_, ?_, ?_⟩
  · rw [hfail]
  · rw [hfail]
  · rintro rfl
    rfl
  · rintro m rfl hm
    show (if m = "" then "Failed to submit order" else m) = m
    rw [if_neg hm]
  · rw [hfail]
  · intro u2 uuid2 ts2 o2
    rw [hfail]
    show (handleSubmitOrder (some u2) uuid2 ts2 o2
        { s with submitting := false, error := some (errorFallback msg) }).2.isSome = true
    cases o2 with
    | success =>
        rw [handleSubmitOrder_success_eq u2 uuid2 ts2
          { s with submitting := false, error := some (errorFallback msg) } hne rfl]
        rfl
    | failure m2 =>
        rw [handleSubmitOrder_failure_eq u2 uuid2 ts2 m2
          { s with submitting := false, error := some (errorFallback msg) } hne rfl]
        rfl

/-- Witness for C2: a concrete failing submit leaves the one-line cart intact. -/
theorem submit_failure_preserves_cart_and_reenables_witness :
    (handleSubmitOrder (some { id := 7 }) "uuid-2" "2024-01-01T00:00:01Z"
        (SubmitOutcome.failure (some "network error")) sOneLine).1.orderItems
      = sOneLine.orderItems :=
  (submit_failure_preserves_cart_and_reenables { id := 7 } "uuid-2" "2024-01-01T00:00:01Z"
    (some "network error") sOneLine (by simp [sOneLine]) rfl).1

/-- Claim C3: a valid submit whose persistence call succeeds empties the cart,
publishes the transient success notification (auto-hidden after 6000 ms and
dismissible by the `onClose` caller), and returns `submitting` to idle. -/
theorem submit_success_clears_cart_and_notifies (u : User) (uuid ts : String)
    (s : OrderSystemState) (hne : s.orderItems ≠ []) (hidle : s.submitting = false) :
    ((handleSubmitOrder (some u) uuid ts SubmitOutcome.success s).1.orderItems = []) ∧
    ((handleSubmitOrder (some u) uuid ts SubmitOutcome.success s).1.successMessage
        = some "Order submitted successfully!") ∧
    ((handleSubmitOrder (some u) uuid ts SubmitOutcome.success s).1.submitting = false) ∧
    snackbarAutoHideDurationMs = 6 * 1000 ∧
    ((dismissSuccess
        (handleSubmitOrder (some u) uuid ts SubmitOutcome.success s).1).successMessage
      = none) := by
  rw [handleSubmitOrder_success_eq u uuid ts s hne hidle]
  exact ⟨rfl, rfl, rfl, rfl, rfl⟩

/-- Witness for C3: a concrete successful submit empties the one-line cart. -/
theorem submit_success_clears_cart_and_notifies_witness :
    (handleSubmitOrder (some { id := 7 }) "uuid-3" "2024-01-01T00:00:02Z"
        SubmitOutcome.success sOneLine).1.orderItems = [] :=
  (submit_success_clears_cart_and_notifies { id := 7 } "uuid-3" "2024-01-01T00:00:02Z"
    sOneLine (by simp [sOneLine]) rfl).1

/-- Two submit events in a row from a valid idle state issue exactly one
persistence call, leaving the state in flight. -/
lemma runSession_two_submits (u : User) (s : OrderSystemState)
    (hidle : s.submitting = false) (hne : s.orderItems ≠ []) :
    runSession [SessionEvent.submit (some u), SessionEvent.submit (some u)] s
      = ({ s with submitting := true, error := none }, 1) := by
  have h1 : stepEvent (s, 0) (SessionEvent.submit (some u))
      = ({ s with submitting := true, error := none }, 1) := by
    show ((submitStart (some u) s).1, 0 + if (submitStart (some u) s).2 then 1 else 0) = _
    rw [submitStart_valid u s hne hidle]
    rfl
  have h2 : stepEvent ({ s with submitting := true, error := none }, 1)
      (SessionEvent.submit (some u))
      = ({ s with submitting := true, error := none }, 1) := by
    show ((submitStart (some u) { s with submitting := true, error := none }).1,
          1 + if (submitStart (some u) { s with submitting := true, error := none }).2
              then 1 else 0) = _
    rw [submitStart_busy (some u) { s with submitting := true, error := none } rfl]
    rfl
  show stepEvent (stepEvent (s, 0) (SessionEvent.submit (some u)))
      (SessionEvent.submit (some u)) = _
  rw [h1, h2]

/-- Claim C8: while a submission is unresolved (`submitting` is true) a submit
issues no persistence call and changes nothing; two submits in rapid
succession with the first unresolved issue exactly one persistence call; the
submission flag only turns on through a submit passing its guard, and every
resolution turns it back off. -/
theorem submission_single_flight :
    (∀ (user : Option User) (s : OrderSystemState), s.submitting = true →
        submitStart user s = (s, false)) ∧
    (∀ (u : User) (s : OrderSystemState), s.submitting = false → s.orderItems ≠ [] →
        (runSession [SessionEvent.submit (some u), SessionEvent.submit (some u)] s).2
          = 1) ∧
    (∀ (user : Option User) (s : OrderSystemState),
        (submitStart user s).1.submitting = true →
        s.submitting = true ∨ (s.submitting = false ∧ (submitStart user s).2 = true)) ∧
    (∀ (o : SubmitOutcome) (s : OrderSystemState),
        (submitResolve o s).submitting = false) := by
  refine ⟨submitStart_busy, ?_, ?_, ?_⟩
  · intro u s hidle hne
    rw [runSession_two_submits u s hidle hne]
  · intro user s h
    cases user with
    | none => exact Or.inl h
    | some u =>
        by_cases hg : s.orderItems = [] ∨ s.submitting = true
        · left
          have hstep : submitStart (some u) s = (s, false) := by
            simp only [submitStart]
            rw [if_pos hg]
          rw [hstep] at h
          exact h
        · right
          push_neg at hg
          have hfalse : s.submitting = false := by
            cases hsub : s.submitting
            · rfl
            · exact absurd hsub hg.2
          refine ⟨hfalse, ?_⟩
          rw [submitStart_valid u s hg.1 hfalse]
  · intro o s
    cases o <;> rfl

/-- Witness for C8: from a concrete idle one-line state, a double submit by
the same user issues exactly one persistence call. -/
theorem submission_single_flight_witness :
    (runSession [SessionEvent.submit (some { id := 7 }),
        SessionEvent.submit (some { id := 7 })] sOneLine).2 = 1 :=
  submission_single_flight.2.1 { id := 7 } sOneLine rfl (by simp [sOneLine])

/-! ### Helper lemmas about handleAddItem -/

/-- `find` misses when no cart line carries the item's id. -/
lemma find?_id_eq_none (item : MenuItem) (cart : List OrderItem)
    (h : ∀ l ∈ cart, l.id ≠ item.id) :
    cart.find? (fun i => i.id == item.id) = none := by
  rw [List.find?_eq_none]
  intro x hx
  simp [h x hx]

/-- Adding an item whose id is not yet in the cart appends a fresh line of
quantity 1 carrying the item's price. -/
lemma handleAddItem_fresh (item : MenuItem) (cart : List OrderItem)
    (h : ∀ l ∈ cart, l.id ≠ item.id) :
    handleAddItem item cart =
      cart ++ [{ id := item.id, name := item.name, price := item.price, quantity := 1 }] := by
  unfold handleAddItem
  rw [find?_id_eq_none item cart h]

/-- Adding an item whose id is carried by the last line (and by no earlier
line) bumps that line's quantity and touches nothing else. -/
lemma handleAddItem_existing (item : MenuItem) (pre : List OrderItem) (line : OrderItem)
    (hpre : ∀ l ∈ pre, l.id ≠ item.id) (hline : line.id = item.id) :
    handleAddItem item (pre ++ [line]) =
      pre ++ [{ line with quantity := line.quantity + 1 }] := by
  unfold handleAddItem
  have hfind : (pre ++ [line]).find? (fun i => i.id == item.id) = some line := by
    rw [List.find?_append, find?_id_eq_none item pre hpre]
    simp [List.find?_cons, hline]
  rw [hfind, List.map_append]
  have hmap : pre.map (fun i =>
      if i.id = item.id then { i with quantity := i.quantity + 1 } else i)
      = pre.map (fun i => i) := by
    apply List.map_congr_left
    intro a ha
    rw [if_neg (hpre a ha)]
  rw [hmap, List.map_id']
  simp [hline]

/-- Folding a run of same-id adds over a cart ending in the line carrying that
id adds the run's length to that line's quantity. -/
lemma foldl_add_same_id (items : List MenuItem) (theId : Int)
    (hids : ∀ it ∈ items, it.id = theId)
    (pre : List OrderItem) (hpre : ∀ l ∈ pre, l.id ≠ theId)
    (line : OrderItem) (hline : line.id = theId) :
    items.foldl (fun c it => handleAddItem it c) (pre ++ [line])
      = pre ++ [{ line with quantity := line.quantity + (items.length : Int) }] := by
  induction items generalizing line with
  | nil =>
      simp only [List.foldl_nil, List.length_nil, Nat.cast_zero, add_zero]
  | cons it rest ih =>
      rw [List.foldl_cons]
      rw [handleAddItem_existing it pre line
        (fun l hl => by rw [hids it (List.mem_cons_self it rest)]; exact hpre l hl)
        (by rw [hids it (List.mem_cons_self it rest), hline])]
      rw [ih (fun x hx => hids x (List.mem_cons_of_mem it hx))
        { line with quantity := line.quantity + 1 } hline]
      simp only [List.length_cons]
      congr 2
      push_cast
      ring

/-- Claim C4: starting from a cart free of the id, a non-empty run of adds all
carrying the same id leaves exactly one line with that id in the cart, with
quantity the number of adds and price (and name) snapshotted from the first
add of the run. -/
theorem add_same_id_merges_quantity (first : MenuItem) (rest : List MenuItem)
    (cart : List OrderItem)
    (hids : ∀ it ∈ first :: rest, it.id = first.id)
    (hcart : ∀ l ∈ cart, l.id ≠ first.id) :
    ((first :: rest).foldl (fun c it => handleAddItem it c) cart).filter
        (fun l => l.id == first.id)
      = [{ id := first.id, name := first.name, price := first.price,
           quantity := (((first :: rest).length : Nat) : Int) }] := by
  rw [List.foldl_cons, handleAddItem_fresh first cart hcart]
  rw [foldl_add_same_id rest first.id (fun x hx => hids x (List.mem_cons_of_mem first hx))
      cart hcart { id := first.id, name := first.name, price := first.price, quantity := 1 }
      rfl]
  rw [List.filter_append]
  have h1 : cart.filter (fun l => l.id == first.id) = [] := by
    rw [List.filter_eq_nil_iff]
    intro a ha
    simp [hcart a ha]
  rw [h1, List.nil_append]
  simp only [List.filter_cons, List.filter_nil]
  rw [if_pos (by simp)]
  simp only [List.length_cons]
  congr 2
  push_cast
  ring

/-- Witness for C4: two adds of id 1 (prices 5 then 7) into the empty cart
leave one line of id 1 with quantity 2 and the first price 5. -/
theorem add_same_id_merges_quantity_witness :
    (([{ id := 1, name := "Tea", price := 5 },
       { id := 1, name := "Tea", price := 7 }] : List MenuItem).foldl
        (fun c it => handleAddItem it c) []).filter (fun l => l.id == (1 : Int))
      = [{ id := 1, name := "Tea", price := 5, quantity := 2 }] :=
  add_same_id_merges_quantity { id := 1, name := "Tea", price := 5 }
    [{ id := 1, name := "Tea", price := 7 }] []
    (by decide) (by decide)

/-! ### Preservation of the cart invariant -/

/-- `handleAddItem` preserves the cart invariant. -/
lemma cartInv_add (item : MenuItem) (cart : List OrderItem) (h : CartInv cart) :
    CartInv (handleAddItem item cart) := by
  unfold handleAddItem
  cases hfind : cart.find? (fun i => i.id == item.id) with
  | some x =>
      constructor
      · intro l hl
        obtain ⟨a, ha, rfl⟩ := List.mem_map.1 hl
        by_cases hid : a.id = item.id
        · rw [if_pos hid]
          show 1 ≤ a.quantity + 1
          have := h.1 a ha
          omega
        · rw [if_neg hid]
          exact h.1 a ha
      · have hm : ((cart.map (fun i =>
            if i.id = item.id then { i with quantity := i.quantity + 1 } else i)).map
              (fun l => l.id)) = cart.map (fun l => l.id) := by
          rw [List.map_map]
          apply List.map_congr_left
          intro a ha
          by_cases hid : a.id = item.id
          · simp [hid]
          · simp [hid]
        rw [hm]
        exact h.2
  | none =>
      constructor
      · intro l hl
        rcases List.mem_append.1 hl with h1 | h2
        · exact h.1 l h1
        · rw [List.mem_singleton] at h2
          subst h2
          norm_num
      · rw [List.map_append]
        simp only [List.map_cons, List.map_nil]
        rw [List.nodup_append]
        refine ⟨h.2, List.nodup_singleton _, ?_⟩
        intro a ha hb
        rw [List.mem_singleton] at hb
        subst hb
        obtain ⟨y, hy, hyid⟩ := List.mem_map.1 ha
        have hne := List.find?_eq_none.1 hfind y hy
        simp only [beq_iff_eq] at hne
        exact hne (by rw [hyid])

/-- `handleUpdateQuantity` preserves the cart invariant. -/
lemma cartInv_update (id q : Int) (cart : List OrderItem) (h : CartInv cart) :
    CartInv (handleUpdateQuantity id q cart) := by
  unfold handleUpdateQuantity
  by_cases hq : q < 1
  · rw [if_pos hq]
    exact h
  · rw [if_neg hq]
    constructor
    · intro l hl
      obtain ⟨a, ha, rfl⟩ := List.mem_map.1 hl
      by_cases hid : a.id = id
      · rw [if_pos hid]
        show 1 ≤ q
        omega
      · rw [if_neg hid]
        exact h.1 a ha
    · have hm : ((cart.map (fun item =>
          if item.id = id then { item with quantity := q } else item)).map
            (fun l => l.id)) = cart.map (fun l => l.id) := by
        rw [List.map_map]
        apply List.map_congr_left
        intro a ha
        by_cases hid : a.id = id
        · simp [hid]
        · simp [hid]
      rw [hm]
      exact h.2

/-- `handleRemoveItem` preserves the cart invariant. -/
lemma cartInv_remove (id : Int) (cart : List OrderItem) (h : CartInv cart) :
    CartInv (handleRemoveItem id cart) := by
  constructor
  · intro l hl
    exact h.1 l (List.mem_of_mem_filter hl)
  · have hsub : ((cart.filter (fun item => item.id != id)).map (fun l => l.id)).Sublist
        (cart.map (fun l => l.id)) :=
      List.Sublist.map _ (List.filter_sublist cart)
    exact List.Nodup.sublist hsub h.2

/-- Each cart operation preserves the cart invariant. -/
lemma cartInv_applyOp (op : CartOp) (cart : List OrderItem) (h : CartInv cart) :
    CartInv (applyOp op cart) := by
  cases op with
  | add item => exact cartInv_add item cart h
  | update id q => exact cartInv_update id q cart h
  | remove id => exact cartInv_remove id cart h

/-- The cart invariant is preserved along any run of cart operations. -/
lemma cartInv_runOps (ops : List CartOp) :
    ∀ cart, CartInv cart → CartInv (runOps ops cart) := by
  induction ops with
  | nil =>
      intro cart h
      exact h
  | cons op rest ih =>
      intro cart h
      exact ih (applyOp op cart) (cartInv_applyOp op cart h)

/-- Claim C6: after any finite sequence of add / update / remove operations
starting from the empty cart, every present line has quantity at least 1 and
no two lines share an id. -/
theorem cart_invariant_holds (ops : List CartOp) : CartInv (runOps ops []) := by
  apply cartInv_runOps
  constructor
  · intro l hl
    exact absurd hl (List.not_mem_nil l)
  · exact List.nodup_nil

/-- Witness for C6: the invariant evaluated on a concrete run of operations. -/
theorem cart_invariant_holds_witness :
    CartInv (runOps [CartOp.add { id := 1, name := "Tea", price := 5 },
      CartOp.add { id := 2, name := "Pie", price := 3 },
      CartOp.add { id := 1, name := "Tea", price := 5 },
      CartOp.update 2 4, CartOp.remove 1] []) :=
  cart_invariant_holds [CartOp.add { id := 1, name := "Tea", price := 5 },
    CartOp.add { id := 2, name := "Pie", price := 3 },
    CartOp.add { id := 1, name := "Tea", price := 5 },
    CartOp.update 2 4, CartOp.remove 1]
